import Mathlib

/-!
Shallow embedding of the events-planner React client.

Each view component's data-fetch handler is modelled as a pure function from
the current component state and the outcome of the HTTP request to the next
component state; each form-submit handler is modelled as a pure function from
the form's field values to the list of write requests it issues together with
the field-level validation errors it records.  Rendering is modelled as a
pure function from component state to an abstract render tree, mirroring the
top-level conditional structure of each component's JSX.
-/

namespace EventsPlanner

/-- Outcome of one `fetch` call: either the promise rejects (network error,
carrying the JS error's `message`), or a response arrives with an HTTP status
code and a parsed JSON body of type `α`. -/
inductive FetchOutcome (α : Type) where
  | networkError (msg : String)
  | response (status : Nat) (body : α)
deriving DecidableEq

/-- The `response.ok` flag of the Fetch API: status in the range 200-299. -/
def statusOk (status : Nat) : Bool :=
  200 ≤ status && status ≤ 299

/-- An attempt fails when the promise rejects or `response.ok` is false. -/
def FetchOutcome.failed : FetchOutcome α → Bool
  | .networkError _ => true
  | .response status _ => !statusOk status

/-- Event resource as consumed by the client (`GET /events/{id}`). -/
structure Event where
  id : Nat
  title : String
  description : String
  location : String
  date : String
  created_at : String
  updated_at : Option String
deriving DecidableEq

/-- RSVP resource as consumed by the client (`GET /events/{id}/rsvps`). -/
structure RSVP where
  id : Nat
  event_id : Nat
  guest_name : String
  guest_email : String
  rsvp_status : String
  note_to_host : String
  created_at : String
deriving DecidableEq

/-- Task resource; the due date is an optional timestamp (`null`/absent maps
to `none`). -/
structure Task where
  id : Nat
  event_id : Nat
  description : String
  assigned_to : String
  priority : String
  due_date : Option Nat
  completed : Bool
deriving DecidableEq

/-- Task summary block of the `GET /events/{id}/tasks` response. -/
structure TaskSummary where
  completed : Nat
  pending : Nat
  high_priority : Nat
  total : Nat
deriving DecidableEq

/-- Body of the `GET /events/{id}/tasks` response. -/
structure TasksResponseBody where
  tasks : List Task
  task_summary : Option TaskSummary
deriving DecidableEq

/-! ### EventDetailPage (src/client/src/components/EventDetailPage.jsx, final version) -/

/-- Hook state of `EventDetailPage` (the fields touched by its fetch
handlers). -/
structure DetailPageState where
  event : Option Event
  loading : Bool
  error : Option String
  rsvps : List RSVP
  rsvpLoading : Bool
  tasks : List Task
  taskSummary : Option TaskSummary
  taskLoading : Bool
deriving DecidableEq

/-- Initial hook state of `EventDetailPage`: `useState(null)`, `useState(true)`,
`useState(null)`, `useState([])`, `useState(false)`, `useState([])`,
`useState(null)`, `useState(false)`. -/
def detailPageInit : DetailPageState :=
  { event := none, loading := true, error := none, rsvps := [], rsvpLoading := false,
    tasks := [], taskSummary := none, taskLoading := false }

/-- The `fetchEvent` handler: on `response.ok` store the parsed body and clear
the error; on status 404 the thrown message is `'Event not found'`; on any
other non-ok status the thrown message interpolates the status code; on a
rejected promise the caught error's message (with the
`'Failed to load event'` fallback for an empty message) is stored.  The
`finally` block always clears `loading`.  `setEvent` is never called on a
failure path, so `event` is left unchanged there. -/
def fetchEvent (s : DetailPageState) (o : FetchOutcome Event) : DetailPageState :=
  match o with
  | .response status body =>
    if statusOk status then
      { s with event := some body, error := none, loading := false }
    else if status = 404 then
      { s with error := some "Event not found", loading := false }
    else
      { s with error := some ("HTTP error! status: " ++ toString status), loading := false }
  | .networkError msg =>
    { s with error := some (if msg = "" then "Failed to load event" else msg), loading := false }

/-- The `fetchEventRSVPs` handler: stores `data.rsvps || []` when the response
is ok, only logs to the console otherwise (no error state is written on any
path), and always clears `rsvpLoading` in its `finally` block. -/
def fetchEventRSVPs (s : DetailPageState) (o : FetchOutcome (List RSVP)) : DetailPageState :=
  match o with
  | .response status body =>
    if statusOk status then
      { s with rsvps := body, rsvpLoading := false }
    else
      { s with rsvpLoading := false }
  | .networkError _ =>
    { s with rsvpLoading := false }

/-- The `fetchEventTasks` handler: stores `data.tasks || []` and
`data.task_summary || null` when the response is ok, only logs otherwise, and
always clears `taskLoading` in its `finally` block. -/
def fetchEventTasks (s : DetailPageState) (o : FetchOutcome TasksResponseBody) : DetailPageState :=
  match o with
  | .response status body =>
    if statusOk status then
      { s with tasks := body.tasks, taskSummary := body.task_summary, taskLoading := false }
    else
      { s with taskLoading := false }
  | .networkError _ =>
    { s with taskLoading := false }

/-- Abstract render result of `EventDetailPage`: the loading container, the
error container (with its message), or the event-detail container. -/
inductive DetailRender where
  | loadingView
  | errorView (msg : String)
  | detailView (ev : Option Event)
deriving DecidableEq

/-- Top-level conditional structure of `EventDetailPage`'s JSX: the loading
container if `loading`, else the error container if `error` is set, else the
event-detail container. -/
def renderDetailPage (s : DetailPageState) : DetailRender :=
  if s.loading then .loadingView
  else
    match s.error with
    | some msg => .errorView msg
    | none => .detailView s.event

/-! ### EventsPage (second component in src/client/src/components/EditEventForm.jsx) -/

/-- Hook state of `EventsPage`: `events`, `loading`, `error`. -/
structure EventsPageState where
  events : List Event
  loading : Bool
  error : Option String
deriving DecidableEq

/-- Initial hook state of `EventsPage`. -/
def eventsPageInit : EventsPageState :=
  { events := [], loading := true, error := none }

/-- The `fetchEvents` handler of `EventsPage` (also run by `handleRefresh`):
on an ok response store the parsed array and clear the error; on any failure
(non-ok status or rejected promise) the catch block stores the constant
message `'Failed to load events. Please try again later.'` and leaves
`events` unchanged; the `finally` block always clears `loading`. -/
def fetchEvents (s : EventsPageState) (o : FetchOutcome (List Event)) : EventsPageState :=
  match o with
  | .response status body =>
    if statusOk status then
      { events := body, error := none, loading := false }
    else
      { s with error := some "Failed to load events. Please try again later.", loading := false }
  | .networkError _ =>
    { s with error := some "Failed to load events. Please try again later.", loading := false }

/-- Abstract render result of `EventsPage`: loading view, error view, the
empty state, or the events grid. -/
inductive EventsRender where
  | loadingView
  | errorView (msg : String)
  | emptyState
  | grid (items : List Event)
deriving DecidableEq

/-- Top-level conditional structure of `EventsPage`'s JSX: loading view if
`loading`, else error view if `error` is set, else the empty state when
`events.length === 0`, else the grid of events. -/
def renderEventsPage (s : EventsPageState) : EventsRender :=
  if s.loading then .loadingView
  else
    match s.error with
    | some msg => .errorView msg
    | none => if s.events.isEmpty then .emptyState else .grid s.events

/-! ### RSVPForm (first component in src/unnamed/part_002) -/

/-- The four controlled fields of the RSVP form. -/
structure RSVPFormData where
  guest_name : String
  guest_email : String
  rsvp_status : String
  note_to_host : String
deriving DecidableEq

/-- The `validationErrors` object: one optional message per field (a key is
present in the JS object exactly when the field is violated). -/
structure RSVPErrors where
  guest_name : Option String
  guest_email : Option String
  rsvp_status : Option String
  note_to_host : Option String
deriving DecidableEq

/-- JS `String.prototype.trim()`: strip leading and trailing whitespace
(defined over the character list so that it evaluates inside the kernel). -/
def jsTrim (s : String) : String :=
  String.mk (((s.toList.dropWhile Char.isWhitespace).reverse.dropWhile Char.isWhitespace).reverse)

/-- JS `String.prototype.toLowerCase()`: lower-case every character. -/
def jsToLower (s : String) : String :=
  String.mk (s.toList.map Char.toLower)

/-- Character class `[^\s@]` of the form's email regex: any character that is
neither whitespace nor `@`. -/
def isEmailChar (c : Char) : Bool :=
  !c.isWhitespace && c != '@'

/-- Embeds the test of the regex `^[^\s@]+@[^\s@]+\.[^\s@]+$` used by
`validateForm`.  A string matches the anchored pattern exactly when it splits
at its first `@` into a nonempty `@`-free, whitespace-free local part and a
nonempty `@`-free, whitespace-free domain part containing a `.` that is
neither its first nor its last character (the part before/after that dot
gives the regex's second/third `[^\s@]+` group, both of which admit further
dots since `.` belongs to the class). -/
def emailTest (s : String) : Bool :=
  let cs := s.toList
  let localPart := cs.takeWhile (fun c => c != '@')
  match cs.drop localPart.length with
  | '@' :: domainPart =>
    !localPart.isEmpty && localPart.all isEmailChar &&
    !domainPart.isEmpty && domainPart.all isEmailChar &&
    ((domainPart.drop 1).dropLast).contains '.'
  | _ => false

/-- The `validateForm` function of `RSVPForm`: required name of trimmed
length at least 2, required email matching the regex after trimming, required
(non-empty) RSVP status, and an optional note of at most 500 characters. -/
def validateRSVPForm (fd : RSVPFormData) : RSVPErrors :=
  { guest_name :=
      if jsTrim fd.guest_name = "" then some "Name is required"
      else if (jsTrim fd.guest_name).length < 2 then some "Name must be at least 2 characters"
      else none
    guest_email :=
      if jsTrim fd.guest_email = "" then some "Email is required"
      else if !emailTest (jsTrim fd.guest_email) then some "Please enter a valid email address"
      else none
    rsvp_status :=
      if fd.rsvp_status = "" then some "Please select your RSVP status"
      else none
    note_to_host :=
      if fd.note_to_host ≠ "" ∧ 500 < fd.note_to_host.length then
        some "Note must be less than 500 characters"
      else none }

/-- The JS check `Object.keys(errors).length === 0`: no field carries an
error message. -/
def RSVPErrors.isEmpty (e : RSVPErrors) : Bool :=
  e.guest_name.isNone && e.guest_email.isNone && e.rsvp_status.isNone && e.note_to_host.isNone

/-- JSON body of the `POST /rsvps` request built by `handleSubmit`. -/
structure RSVPPayload where
  event_id : Nat
  guest_name : String
  guest_email : String
  rsvp_status : String
  note_to_host : String
deriving DecidableEq

/-- The `rsvpData` object of `handleSubmit`: name and note trimmed, email
trimmed and lower-cased, status passed through. -/
def rsvpPayload (eventId : Nat) (fd : RSVPFormData) : RSVPPayload :=
  { event_id := eventId
    guest_name := jsTrim fd.guest_name
    guest_email := jsToLower (jsTrim fd.guest_email)
    rsvp_status := fd.rsvp_status
    note_to_host := jsTrim fd.note_to_host }

/-- The `handleSubmit` function of `RSVPForm` up to the point where the
network is reached: run `validateForm`; when it reports errors, return before
any `fetch` (zero requests); otherwise issue the single `POST /rsvps` with
the prepared payload.  The second component is the `validationErrors` state
written by `validateForm`. -/
def rsvpHandleSubmit (eventId : Nat) (fd : RSVPFormData) : List RSVPPayload × RSVPErrors :=
  let errs := validateRSVPForm fd
  if errs.isEmpty then ([rsvpPayload eventId fd], errs) else ([], errs)

/-! ### NewTaskForm (src/client/src/components/NewTaskForm.jsx, first component) -/

/-- HTTP method of a write request. -/
inductive HttpMethod where
  | get
  | post
  | patch
  | delete
deriving DecidableEq

/-- Field values of the new-task Formik form.  The `datetime-local` input's
value is modelled as an optional timestamp: the empty string (falsy in the JS
truthiness checks) is `none`. -/
structure TaskFormValues where
  description : String
  assigned_to : String
  priority : String
  due_date : Option Nat
  completed : Bool
deriving DecidableEq

/-- Per-field errors produced by `TaskValidationSchema`. -/
structure TaskFormErrors where
  description : Option String
  assigned_to : Option String
  priority : Option String
  due_date : Option String
deriving DecidableEq

/-- The `description` rules of `TaskValidationSchema`: required, min 5,
max 500 (the violated rule's message is reported; a length-4 value violates
only the min rule, so its message is unambiguous). -/
def taskDescriptionError (s : String) : Option String :=
  if s = "" then some "Description is required"
  else if s.length < 5 then some "Description must be at least 5 characters"
  else if 500 < s.length then some "Description must be less than 500 characters"
  else none

/-- `TaskValidationSchema`, evaluated at the current time `now`: description
rules as above, `assigned_to` max 100, `priority` required and in the fixed
enumeration, nullable `due_date` not before `now`. -/
def taskValidate (now : Nat) (v : TaskFormValues) : TaskFormErrors :=
  { description := taskDescriptionError v.description
    assigned_to :=
      if 100 < v.assigned_to.length then some "Assigned to must be less than 100 characters"
      else none
    priority :=
      if v.priority = "" then some "Priority is required"
      else if v.priority ≠ "High" ∧ v.priority ≠ "Medium" ∧ v.priority ≠ "Low" then
        some "Priority must be High, Medium, or Low"
      else none
    due_date :=
      match v.due_date with
      | none => none
      | some d => if d < now then some "Due date must be in the future" else none }

/-- No field of the task form carries an error message. -/
def TaskFormErrors.isEmpty (e : TaskFormErrors) : Bool :=
  e.description.isNone && e.assigned_to.isNone && e.priority.isNone && e.due_date.isNone

/-- JSON body of the `POST /tasks` request: exactly the mutable task fields
(`event_id`, trimmed `description`, trimmed `assigned_to`, `priority`,
`completed`, and `due_date` only when one was entered). -/
structure TaskPayload where
  event_id : Nat
  description : String
  assigned_to : String
  priority : String
  completed : Bool
  due_date : Option Nat
deriving DecidableEq

/-- A write request issued by the task form. -/
structure TaskWriteRequest where
  method : HttpMethod
  url : String
  body : TaskPayload
deriving DecidableEq

/-- The `taskData` object built in `handleSubmit` of `NewTaskForm`:
description and assigned_to trimmed, `due_date` attached only when the field
is non-empty. -/
def newTaskPayload (eventId : Nat) (v : TaskFormValues) : TaskPayload :=
  { event_id := eventId
    description := jsTrim v.description
    assigned_to := jsTrim v.assigned_to
    priority := v.priority
    completed := v.completed
    due_date := v.due_date }

/-- The `handleSubmit` function of `NewTaskForm`: it issues the single
`POST /tasks` call (Formik invokes it only after the schema passed). -/
def newTaskHandleSubmit (eventId : Nat) (v : TaskFormValues) : List TaskWriteRequest :=
  [{ method := .post, url := "/tasks", body := newTaskPayload eventId v }]

/-- Formik's submission pipeline for `NewTaskForm`: run
`TaskValidationSchema`; if any field has an error, display the per-field
messages and do not call `handleSubmit` (zero requests); otherwise
`handleSubmit` runs and issues its one request. -/
def taskFormSubmit (now eventId : Nat) (v : TaskFormValues) : List TaskWriteRequest :=
  if (taskValidate now v).isEmpty then newTaskHandleSubmit eventId v else []

/-! ### NewEventForm (src/client/src/components/NewTaskForm.jsx, second component) -/

/-- Field values of the new-event Formik form; the `datetime-local` value is
an optional timestamp (empty input maps to `none`). -/
structure EventFormValues where
  title : String
  description : String
  location : String
  date : Option Nat
deriving DecidableEq

/-- Per-field errors produced by the event validation schema. -/
structure EventFormErrors where
  title : Option String
  description : Option String
  location : Option String
  date : Option String
deriving DecidableEq

/-- The Yup schema of `NewEventForm`: title required with length in [3,200],
description at most 1000, location at most 300, date required and not before
`now`. -/
def eventValidate (now : Nat) (v : EventFormValues) : EventFormErrors :=
  { title :=
      if v.title = "" then some "Title is required"
      else if v.title.length < 3 then some "Title must be at least 3 characters"
      else if 200 < v.title.length then some "Title must be less than 200 characters"
      else none
    description :=
      if 1000 < v.description.length then some "Description must be less than 1000 characters"
      else none
    location :=
      if 300 < v.location.length then some "Location must be less than 300 characters"
      else none
    date :=
      match v.date with
      | none => some "Date is required"
      | some d => if d < now then some "Date must be in the future" else none }

/-- No field of the event form carries an error message. -/
def EventFormErrors.isEmpty (e : EventFormErrors) : Bool :=
  e.title.isNone && e.description.isNone && e.location.isNone && e.date.isNone

/-- JSON body of the `POST /events` request: exactly the mutable event
fields; none of the strings are trimmed by this form. -/
structure EventPayload where
  title : String
  description : String
  location : String
  date : Nat
deriving DecidableEq

/-- A write request issued by the event form. -/
structure EventWriteRequest where
  method : HttpMethod
  url : String
  body : EventPayload
deriving DecidableEq

/-- The `eventData` object of `NewEventForm.handleSubmit`: title,
description and location passed through unchanged, the entered date
serialised (modelled as the timestamp itself; validation guarantees the
handler only ever runs with a date present, so the default is unreachable
there). -/
def newEventPayload (v : EventFormValues) : EventPayload :=
  { title := v.title
    description := v.description
    location := v.location
    date := v.date.getD 0 }

/-- The `handleSubmit` function of `NewEventForm`: the single
`POST /events` call. -/
def newEventHandleSubmit (v : EventFormValues) : List EventWriteRequest :=
  [{ method := .post, url := "/events", body := newEventPayload v }]

/-- Formik's submission pipeline for `NewEventForm`: schema errors block the
submit with zero requests, otherwise `handleSubmit` issues its one POST. -/
def eventFormSubmit (now : Nat) (v : EventFormValues) : List EventWriteRequest :=
  if (eventValidate now v).isEmpty then newEventHandleSubmit v else []

/-! ### TaskList (second component in src/unnamed/part_002) -/

/-- The `isOverdue` helper of `TaskList`: a task with no due date or already
completed is never overdue; otherwise it is overdue exactly when its due date
is strictly before the current time `now` (the JS comparison
`new Date(task.due_date) < new Date()`). -/
def isOverdue (now : Nat) (task : Task) : Bool :=
  match task.due_date with
  | none => false
  | some d => if task.completed then false else decide (d < now)

/-- Display record returned by `getPriorityIndicator`. -/
structure PriorityIndicator where
  color : String
  text : String
deriving DecidableEq

/-- The `getPriorityIndicator` helper over the fixed three-value priority
enumeration, with its catch-all default. -/
def getPriorityIndicator (priority : String) : PriorityIndicator :=
  if priority = "High" then { color := "#dc3545", text := "High" }
  else if priority = "Medium" then { color := "#ffc107", text := "Medium" }
  else if priority = "Low" then { color := "#28a745", text := "Low" }
  else { color := "#6c757d", text := "Unknown" }

/-- State relevant to the completion-toggle handler: the `processingTasks`
set of `TaskList` (a JS `Set`, modelled as a duplicate-free list) together
with the multiset of `PATCH /tasks/{id}/toggle` requests currently in
flight. -/
structure ToggleState where
  processing : List Nat
  inFlight : List Nat
deriving DecidableEq

/-- Events driving the toggle handler: a user click invoking
`handleTaskToggle(taskId)`, and the settlement of an outstanding toggle
request (success, HTTP error or network error — the `finally` block behaves
identically). -/
inductive ToggleEvent where
  | invoke (taskId : Nat)
  | complete (taskId : Nat)
deriving DecidableEq

/-- One step of the toggle protocol.  `invoke`: `handleTaskToggle` returns
immediately when the id is already in `processingTasks`, issuing no request
and changing nothing; otherwise it adds the id to the set and issues one
request.  `complete`: the `finally` block deletes the id from the set and the
request leaves flight.  The returned list holds the ids of the requests
issued by the step. -/
def toggleStep (s : ToggleState) (e : ToggleEvent) : ToggleState × List Nat :=
  match e with
  | .invoke taskId =>
    if taskId ∈ s.processing then (s, [])
    else ({ processing := taskId :: s.processing, inFlight := taskId :: s.inFlight }, [taskId])
  | .complete taskId =>
    ({ processing := s.processing.erase taskId, inFlight := s.inFlight.erase taskId }, [])

/-- Initial toggle state: empty `processingTasks` set, nothing in flight. -/
def toggleInit : ToggleState :=
  { processing := [], inFlight := [] }

/-- Run a sequence of toggle events from the initial state. -/
def toggleRun (events : List ToggleEvent) : ToggleState :=
  events.foldl (fun s e => (toggleStep s e).1) toggleInit

/-- Invariant of the toggle protocol: the processing set is duplicate-free
(it models a JS `Set`), in-flight requests are pairwise distinct in id, and
every in-flight id is recorded in the processing set. -/
def ToggleInv (s : ToggleState) : Prop :=
  s.processing.Nodup ∧ s.inFlight.Nodup ∧ ∀ x ∈ s.inFlight, x ∈ s.processing

/-! ### Violation predicates (the stated validation rules of the RSVP form) -/

/-- The guest-name rules of `validateForm` are violated: empty required
field, or trimmed length below 2. -/
def nameViolation (fd : RSVPFormData) : Prop :=
  jsTrim fd.guest_name = "" ∨ (jsTrim fd.guest_name).length < 2

/-- The guest-email rules of `validateForm` are violated: empty required
field, or the trimmed value does not match the email regex. -/
def emailViolation (fd : RSVPFormData) : Prop :=
  jsTrim fd.guest_email = "" ∨ emailTest (jsTrim fd.guest_email) = false

/-- The RSVP-status rule of `validateForm` is violated: no status selected
(the enumeration radio buttons leave the field empty until one is picked). -/
def statusViolation (fd : RSVPFormData) : Prop :=
  fd.rsvp_status = ""

/-- The note rule of `validateForm` is violated: a non-empty note longer
than 500 characters. -/
def noteViolation (fd : RSVPFormData) : Prop :=
  fd.note_to_host ≠ "" ∧ 500 < fd.note_to_host.length

/-! ### Concrete sample values used by the witnesses -/

/-- A concrete event payload. -/
def sampleEvent : Event :=
  { id := 1, title := "Launch party", description := "", location := "HQ",
    date := "2025-06-01T10:00", created_at := "2025-01-01", updated_at := none }

/-- A concrete RSVP form entry with every field empty. -/
def emptyRSVPForm : RSVPFormData :=
  { guest_name := "", guest_email := "", rsvp_status := "", note_to_host := "" }

/-- A concrete valid RSVP form entry. -/
def sampleRSVPForm : RSVPFormData :=
  { guest_name := "Alice", guest_email := " Alice@Example.COM ", rsvp_status := "Yes",
    note_to_host := "" }

/-- A concrete valid task form entry. -/
def sampleTaskValues : TaskFormValues :=
  { description := "Buy the cake", assigned_to := "  Alice  ", priority := "Medium",
    due_date := none, completed := false }

/-- A concrete valid event form entry. -/
def sampleEventValues : EventFormValues :=
  { title := "Party", description := "", location := "", date := some 10 }

/-- A concrete task form entry whose description has length 4. -/
def shortTaskValues : TaskFormValues :=
  { description := "abcd", assigned_to := "", priority := "Medium",
    due_date := none, completed := false }

/-! ## Theorems -/

/-- Claim C5: for every read-fetch operation, on every termination of the
attempt — success, non-success HTTP status, or thrown network error — the
corresponding loading flag is cleared when the attempt concludes; no
terminating execution path leaves the loading flag set. -/
theorem fetch_concludes_loading_cleared (s : DetailPageState) (sl : EventsPageState)
    (o₁ : FetchOutcome Event) (o₂ : FetchOutcome (List RSVP))
    (o₃ : FetchOutcome TasksResponseBody) (o₄ : FetchOutcome (List Event)) :
    (fetchEvent s o₁).loading = false ∧
    (fetchEventRSVPs s o₂).rsvpLoading = false ∧
    (fetchEventTasks s o₃).taskLoading = false ∧
    (fetchEvents sl o₄).loading = false := by
  refine ⟨?_, ?_, ?_, ?_⟩
  · cases o₁ with
    | networkError m => rfl
    | response st b =>
      simp only [fetchEvent]
      split_ifs <;> rfl
  · cases o₂ with
    | networkError m => rfl
    | response st b =>
      simp only [fetchEventRSVPs]
      split <;> rfl
  · cases o₃ with
    | networkError m => rfl
    | response st b =>
      simp only [fetchEventTasks]
      split <;> rfl
  · cases o₄ with
    | networkError m => rfl
    | response st b =>
      simp only [fetchEvents]
      split <;> rfl

/-- Claim C7: `isOverdue` returns true for a task exactly when the task has a
due date, the due date is strictly in the past relative to the current time,
and the task is not completed (so it returns false whenever the task has no
due date or is completed). -/
theorem isOverdue_iff (now : Nat) (t : Task) :
    isOverdue now t = true ↔ ∃ d, t.due_date = some d ∧ d < now ∧ t.completed = false := by
  cases h : t.due_date with
  | none => simp [isOverdue, h]
  | some d => cases hc : t.completed <;> simp [isOverdue, h, hc]

/-- Claim C8: the refresh/retry action of `EventsPage` is idempotent with
respect to rendering: for a fixed backend response, running `fetchEvents`
twice yields the same state and the same rendered output as running it once,
and the rendered output after a fetch does not depend on the state the fetch
started from. -/
theorem refresh_idempotent (s : EventsPageState) (o : FetchOutcome (List Event)) :
    fetchEvents (fetchEvents s o) o = fetchEvents s o ∧
    renderEventsPage (fetchEvents (fetchEvents s o) o) = renderEventsPage (fetchEvents s o) ∧
    ∀ s₂ : EventsPageState, renderEventsPage (fetchEvents s₂ o) = renderEventsPage (fetchEvents s o) := by
  cases o with
  | networkError m => exact ⟨rfl, rfl, fun s₂ => rfl⟩
  | response status body =>
    by_cases h : statusOk status
    · refine ⟨?_, ?_, fun s₂ => ?_⟩ <;> simp [fetchEvents, renderEventsPage, h]
    · refine ⟨?_, ?_, fun s₂ => ?_⟩ <;>
        simp [fetchEvents, renderEventsPage, h]

/-- Claim C1: for the single-event detail fetch, a 404 response makes the
view's error state exactly the string "Event not found" and the error view
(not the detail container) is rendered; any other non-success status makes
the error state the generic HTTP-error message, which contains the numeric
status code. -/
theorem fetchEvent_notFound_and_status_message (s : DetailPageState) (body : Event)
    (status : Nat) (hok : statusOk status = false) (h404 : status ≠ 404) :
    (fetchEvent s (.response 404 body)).error = some "Event not found" ∧
    renderDetailPage (fetchEvent s (.response 404 body)) = .errorView "Event not found" ∧
    (∀ ev, renderDetailPage (fetchEvent s (.response 404 body)) ≠ .detailView ev) ∧
    (fetchEvent s (.response status body)).error =
      some ("HTTP error! status: " ++ toString status) ∧
    (∃ pre, (fetchEvent s (.response status body)).error = some (pre ++ toString status)) := by
  have h1 : statusOk 404 = false := by decide
  refine ⟨?_, ?_, ?_, ?_, ?_⟩
  · simp [fetchEvent, h1]
  · simp [fetchEvent, renderDetailPage, h1]
  · intro ev
    simp [fetchEvent, renderDetailPage, h1]
  · simp [fetchEvent, hok, h404]
  · exact ⟨"HTTP error! status: ", by simp [fetchEvent, hok, h404]⟩

/-- Witness for C1: the theorem applied at status 500 on the initial state. -/
theorem fetchEvent_notFound_and_status_message_witness :
    statusOk 500 = false ∧ (500 : Nat) ≠ 404 ∧
    (fetchEvent detailPageInit (.response 500 sampleEvent)).error =
      some ("HTTP error! status: " ++ toString (500 : Nat)) ∧
    (fetchEvent detailPageInit (.response 404 sampleEvent)).error = some "Event not found" :=
  ⟨by decide, by decide,
    (fetchEvent_notFound_and_status_message detailPageInit sampleEvent 500
      (by decide) (by decide)).2.2.2.1,
    (fetchEvent_notFound_and_status_message detailPageInit sampleEvent 500
      (by decide) (by decide)).1⟩

/-- Claim C2: for every RSVP form submission whose field values violate at
least one stated validation rule, `handleSubmit` performs zero network calls
(the request list is empty) and `validateForm` records a non-empty
field-level error message for each violated field. -/
theorem rsvp_invalid_submission_blocked (eventId : Nat) (fd : RSVPFormData)
    (hviol : nameViolation fd ∨ emailViolation fd ∨ statusViolation fd ∨ noteViolation fd) :
    (rsvpHandleSubmit eventId fd).1 = [] ∧
    (nameViolation fd → ∃ m, (validateRSVPForm fd).guest_name = some m ∧ m ≠ "") ∧
    (emailViolation fd → ∃ m, (validateRSVPForm fd).guest_email = some m ∧ m ≠ "") ∧
    (statusViolation fd → ∃ m, (validateRSVPForm fd).rsvp_status = some m ∧ m ≠ "") ∧
    (noteViolation fd → ∃ m, (validateRSVPForm fd).note_to_host = some m ∧ m ≠ "") := by
  have hname : nameViolation fd → ∃ m, (validateRSVPForm fd).guest_name = some m ∧ m ≠ "" := by
    intro h
    by_cases h1 : jsTrim fd.guest_name = ""
    · exact ⟨"Name is required", by simp [validateRSVPForm, h1], by decide⟩
    · have h2 : (jsTrim fd.guest_name).length < 2 := h.resolve_left h1
      exact ⟨"Name must be at least 2 characters", by simp [validateRSVPForm, h1, h2], by decide⟩
  have hemail : emailViolation fd → ∃ m, (validateRSVPForm fd).guest_email = some m ∧ m ≠ "" := by
    intro h
    by_cases h1 : jsTrim fd.guest_email = ""
    · exact ⟨"Email is required", by simp [validateRSVPForm, h1], by decide⟩
    · have h2 : emailTest (jsTrim fd.guest_email) = false := h.resolve_left h1
      exact ⟨"Please enter a valid email address", by simp [validateRSVPForm, h1, h2], by decide⟩
  have hstatus : statusViolation fd → ∃ m, (validateRSVPForm fd).rsvp_status = some m ∧ m ≠ "" := by
    intro h
    exact ⟨"Please select your RSVP status", by simp [validateRSVPForm, statusViolation] at h ⊢; simp [h], by decide⟩
  have hnote : noteViolation fd → ∃ m, (validateRSVPForm fd).note_to_host = some m ∧ m ≠ "" := by
    intro h
    exact ⟨"Note must be less than 500 characters", by simp [validateRSVPForm, h.1, h.2], by decide⟩
  have hne : (validateRSVPForm fd).isEmpty = false := by
    rcases hviol with h | h | h | h
    · obtain ⟨m, hm, _⟩ := hname h
      simp [RSVPErrors.isEmpty, hm]
    · obtain ⟨m, hm, _⟩ := hemail h
      simp [RSVPErrors.isEmpty, hm]
    · obtain ⟨m, hm, _⟩ := hstatus h
      simp [RSVPErrors.isEmpty, hm]
    · obtain ⟨m, hm, _⟩ := hnote h
      simp [RSVPErrors.isEmpty, hm]
  refine ⟨?_, hname, hemail, hstatus, hnote⟩
  simp [rsvpHandleSubmit, hne]

/-- Witness for C2: the all-empty RSVP form violates the name rule, and its
submission issues no request while the name field carries a message. -/
theorem rsvp_invalid_submission_blocked_witness :
    nameViolation emptyRSVPForm ∧
    (rsvpHandleSubmit 1 emptyRSVPForm).1 = [] ∧
    (∃ m, (validateRSVPForm emptyRSVPForm).guest_name = some m ∧ m ≠ "") :=
  ⟨Or.inl (by decide),
    (rsvp_invalid_submission_blocked 1 emptyRSVPForm (Or.inl (Or.inl (by decide)))).1,
    (rsvp_invalid_submission_blocked 1 emptyRSVPForm
      (Or.inl (Or.inl (by decide)))).2.1 (Or.inl (by decide))⟩

/-- Claim C10: for every valid RSVP submission, the guest_email field of the
issued `POST /rsvps` body equals the entered email trimmed of surrounding
whitespace and converted to lower case, so two entries differing only in
case or surrounding whitespace produce the same submitted email. -/
theorem rsvp_email_normalized (eventId : Nat) (fd : RSVPFormData)
    (hvalid : (validateRSVPForm fd).isEmpty = true) :
    (rsvpHandleSubmit eventId fd).1 = [rsvpPayload eventId fd] ∧
    (rsvpPayload eventId fd).guest_email = jsToLower (jsTrim fd.guest_email) ∧
    ∀ fd₂ : RSVPFormData, jsToLower (jsTrim fd₂.guest_email) = jsToLower (jsTrim fd.guest_email) →
      (rsvpPayload eventId fd₂).guest_email = (rsvpPayload eventId fd).guest_email := by
  refine ⟨by simp [rsvpHandleSubmit, hvalid], rfl, ?_⟩
  intro fd₂ he
  simpa [rsvpPayload] using he

/-- Witness for C10: a valid form whose email carries surrounding whitespace
and mixed case submits the normalized address. -/
theorem rsvp_email_normalized_witness :
    (validateRSVPForm sampleRSVPForm).isEmpty = true ∧
    (rsvpHandleSubmit 1 sampleRSVPForm).1 = [rsvpPayload 1 sampleRSVPForm] ∧
    (rsvpPayload 1 sampleRSVPForm).guest_email = "alice@example.com" :=
  ⟨by decide, (rsvp_email_normalized 1 sampleRSVPForm (by decide)).1, by decide⟩

/-- Claim C3: for every form submission with valid inputs, the submit handler
issues exactly one write request (POST for creation) whose body contains
exactly the entity's defined mutable fields, with the task description and
assigned_to trimmed of surrounding whitespace before being sent (the event
form sends its fields through unchanged). -/
theorem valid_submission_single_write_request (now eventId d : Nat)
    (tv : TaskFormValues) (ev : EventFormValues)
    (ht : (taskValidate now tv).isEmpty = true)
    (he : (eventValidate now ev).isEmpty = true) (hd : ev.date = some d) :
    taskFormSubmit now eventId tv =
      [{ method := .post, url := "/tasks", body := newTaskPayload eventId tv }] ∧
    newTaskPayload eventId tv =
      { event_id := eventId, description := jsTrim tv.description,
        assigned_to := jsTrim tv.assigned_to, priority := tv.priority,
        completed := tv.completed, due_date := tv.due_date } ∧
    eventFormSubmit now ev =
      [{ method := .post, url := "/events", body := newEventPayload ev }] ∧
    newEventPayload ev =
      { title := ev.title, description := ev.description, location := ev.location, date := d } := by
  refine ⟨by simp [taskFormSubmit, ht, newTaskHandleSubmit], rfl,
    by simp [eventFormSubmit, he, newEventHandleSubmit], ?_⟩
  simp [newEventPayload, hd]

/-- Witness for C3: concrete valid task and event form entries each produce
their single POST with the trimmed payload. -/
theorem valid_submission_single_write_request_witness :
    (taskValidate 5 sampleTaskValues).isEmpty = true ∧
    (eventValidate 5 sampleEventValues).isEmpty = true ∧
    sampleEventValues.date = some 10 ∧
    taskFormSubmit 5 2 sampleTaskValues =
      [{ method := .post, url := "/tasks", body := newTaskPayload 2 sampleTaskValues }] ∧
    newTaskPayload 2 sampleTaskValues =
      { event_id := 2, description := "Buy the cake", assigned_to := "Alice",
        priority := "Medium", completed := false, due_date := none } :=
  ⟨by decide, by decide, by decide,
    (valid_submission_single_write_request 5 2 10 sampleTaskValues sampleEventValues
      (by decide) (by decide) (by decide)).1, by decide⟩

/-- Claim C6: submitting the new-task form with a description of length 4
(for example "abcd") blocks submission: the validation schema rejects it with
the field message exactly "Description must be at least 5 characters", and no
POST request to /tasks is made. -/
theorem task_description_length_four_blocked (now eventId : Nat) (v : TaskFormValues)
    (h : v.description.length = 4) :
    (taskValidate now v).description = some "Description must be at least 5 characters" ∧
    taskFormSubmit now eventId v = [] := by
  have hne : v.description ≠ "" := by
    intro he
    rw [he] at h
    exact absurd h (by decide)
  have h5 : v.description.length < 5 := by omega
  have hdesc : taskDescriptionError v.description =
      some "Description must be at least 5 characters" := by
    simp [taskDescriptionError, hne, h5]
  have hfield : (taskValidate now v).description =
      some "Description must be at least 5 characters" := by
    simpa [taskValidate] using hdesc
  refine ⟨hfield, ?_⟩
  have hne2 : (taskValidate now v).isEmpty = false := by
    simp [TaskFormErrors.isEmpty, hfield]
  simp [taskFormSubmit, hne2]

/-- Witness for C6: the description "abcd" blocks the submission with the
minimum-length message. -/
theorem task_description_length_four_blocked_witness :
    shortTaskValues.description.length = 4 ∧
    (taskValidate 5 shortTaskValues).description =
      some "Description must be at least 5 characters" ∧
    taskFormSubmit 5 2 shortTaskValues = [] :=
  ⟨by decide, (task_description_length_four_blocked 5 2 shortTaskValues (by decide)).1,
    (task_description_length_four_blocked 5 2 shortTaskValues (by decide)).2⟩

/-- Counterexample to claim C4: the RSVP-list fetch CAN fail without the view
storing any error message.  A 500 response to `GET /events/{id}/rsvps` is a
failed attempt, yet `fetchEventRSVPs` leaves the component state completely
unchanged from the initial state — in particular the error state stays
`none`; the handler has no error state of its own and never writes the
page's. -/
theorem rsvp_fetch_failure_stores_no_error :
    (FetchOutcome.response 500 ([] : List RSVP)).failed = true ∧
    fetchEventRSVPs detailPageInit (.response 500 ([] : List RSVP)) = detailPageInit ∧
    (fetchEventRSVPs detailPageInit (.response 500 ([] : List RSVP))).error = none := by
  decide

/-- Claim C4 as amended: when the event-detail fetch fails, the view stores a
non-empty human-readable error message and its data state is left empty
(starting from the initial state); when the RSVP-list or task-list fetch
fails, the data state is left unchanged (hence empty if never loaded) and the
loading flag is cleared, but no error message is stored. -/
theorem read_fetch_failure_amended (s : DetailPageState)
    (o₁ : FetchOutcome Event) (o₂ : FetchOutcome (List RSVP))
    (o₃ : FetchOutcome TasksResponseBody)
    (h₁ : o₁.failed = true) (h₂ : o₂.failed = true) (h₃ : o₃.failed = true) :
    (∃ m, (fetchEvent detailPageInit o₁).error = some m ∧ m ≠ "") ∧
    (fetchEvent detailPageInit o₁).event = none ∧
    (fetchEventRSVPs s o₂).rsvps = s.rsvps ∧
    (fetchEventRSVPs s o₂).error = s.error ∧
    (fetchEventRSVPs s o₂).rsvpLoading = false ∧
    (fetchEventTasks s o₃).tasks = s.tasks ∧
    (fetchEventTasks s o₃).error = s.error ∧
    (fetchEventTasks s o₃).taskLoading = false := by
  have hok₂ : ∀ st (b : List RSVP), o₂ = .response st b → statusOk st = false := by
    intro st b hb
    rw [hb] at h₂
    simpa [FetchOutcome.failed] using h₂
  have hok₃ : ∀ st (b : TasksResponseBody), o₃ = .response st b → statusOk st = false := by
    intro st b hb
    rw [hb] at h₃
    simpa [FetchOutcome.failed] using h₃
  refine ⟨?_, ?_, ?_, ?_, ?_, ?_, ?_, ?_⟩
  · cases o₁ with
    | networkError m =>
      by_cases hm : m = ""
      · exact ⟨"Failed to load event", by simp [fetchEvent, hm], by decide⟩
      · exact ⟨m, by simp [fetchEvent, hm], hm⟩
    | response st b =>
      have hst : statusOk st = false := by simpa [FetchOutcome.failed] using h₁
      by_cases h4 : st = 404
      · subst h4
        exact ⟨"Event not found", by simp [fetchEvent, hst], by decide⟩
      · refine ⟨"HTTP error! status: " ++ toString st, by simp [fetchEvent, hst, h4], ?_⟩
        intro hc
        have hlen := congrArg String.length hc
        rw [String.length_append] at hlen
        have h20 : ("HTTP error! status: ").length = 20 := rfl
        have h0 : ("" : String).length = 0 := rfl
        rw [h20, h0] at hlen
        omega
  · cases o₁ with
    | networkError m => simp [fetchEvent, detailPageInit]
    | response st b =>
      have hst : statusOk st = false := by simpa [FetchOutcome.failed] using h₁
      simp [fetchEvent, hst, detailPageInit]
      split <;> rfl
  · cases o₂ with
    | networkError m => rfl
    | response st b => simp [fetchEventRSVPs, hok₂ st b rfl]
  · cases o₂ with
    | networkError m => rfl
    | response st b => simp [fetchEventRSVPs, hok₂ st b rfl]
  · cases o₂ with
    | networkError m => rfl
    | response st b => simp [fetchEventRSVPs, hok₂ st b rfl]
  · cases o₃ with
    | networkError m => rfl
    | response st b => simp [fetchEventTasks, hok₃ st b rfl]
  · cases o₃ with
    | networkError m => rfl
    | response st b => simp [fetchEventTasks, hok₃ st b rfl]
  · cases o₃ with
    | networkError m => rfl
    | response st b => simp [fetchEventTasks, hok₃ st b rfl]

/-- Witness for the amended C4: concrete 500 responses on all three read
fetches from the initial state. -/
theorem read_fetch_failure_amended_witness :
    (FetchOutcome.response 500 sampleEvent).failed = true ∧
    (∃ m, (fetchEvent detailPageInit (.response 500 sampleEvent)).error = some m ∧ m ≠ "") ∧
    (fetchEvent detailPageInit (.response 500 sampleEvent)).event = none :=
  ⟨by decide,
    (read_fetch_failure_amended detailPageInit (.response 500 sampleEvent)
      (.response 500 []) (.response 500 ⟨[], none⟩)
      (by decide) (by decide) (by decide)).1,
    (read_fetch_failure_amended detailPageInit (.response 500 sampleEvent)
      (.response 500 []) (.response 500 ⟨[], none⟩)
      (by decide) (by decide) (by decide)).2.1⟩

/-- One toggle step preserves the protocol invariant. -/
theorem toggleStep_inv (s : ToggleState) (e : ToggleEvent) (h : ToggleInv s) :
    ToggleInv (toggleStep s e).1 := by
  obtain ⟨hp, hf, hsub⟩ := h
  cases e with
  | invoke taskId =>
    by_cases hmem : taskId ∈ s.processing
    · simpa [toggleStep, hmem] using ⟨hp, hf, hsub⟩
    · have hfid : taskId ∉ s.inFlight := fun hx => hmem (hsub taskId hx)
      simp only [toggleStep, if_neg hmem]
      refine ⟨List.nodup_cons.mpr ⟨hmem, hp⟩, List.nodup_cons.mpr ⟨hfid, hf⟩, ?_⟩
      intro x hx
      rcases List.mem_cons.mp hx with h | h
      · exact List.mem_cons.mpr (Or.inl h)
      · exact List.mem_cons.mpr (Or.inr (hsub x h))
  | complete taskId =>
    refine ⟨hp.erase taskId, hf.erase taskId, ?_⟩
    intro x hx
    have hx' : x ≠ taskId ∧ x ∈ s.inFlight := (List.Nodup.mem_erase_iff hf).mp hx
    exact (List.mem_erase_of_ne hx'.1).mpr (hsub x hx'.2)

/-- Every reachable toggle state satisfies the protocol invariant. -/
theorem toggleRun_inv (events : List ToggleEvent) : ToggleInv (toggleRun events) := by
  suffices h : ∀ s, ToggleInv s →
      ToggleInv (events.foldl (fun s e => (toggleStep s e).1) s) from
    h toggleInit ⟨List.nodup_nil, List.nodup_nil, by simp [toggleInit]⟩
  induction events with
  | nil => exact fun s hs => hs
  | cons e es ih => exact fun s hs => ih _ (toggleStep_inv s e hs)

/-- Claim C9: while a completion-toggle request for a given task id is in
flight, a further invocation of the toggle handler for that same id performs
no network call and makes no state change (the handler returns immediately
when the id is in `processingTasks`); consequently, in every reachable state
at most one toggle request per task id is in flight. -/
theorem toggle_no_concurrent_requests (events : List ToggleEvent) (taskId : Nat) :
    (toggleRun events).inFlight.count taskId ≤ 1 ∧
    ∀ s : ToggleState, taskId ∈ s.processing →
      toggleStep s (.invoke taskId) = (s, []) := by
  refine ⟨List.nodup_iff_count_le_one.mp (toggleRun_inv events).2.1 taskId, ?_⟩
  intro s hmem
  simp [toggleStep, hmem]

/-- Witness for C9: after an invocation whose request is still in flight, a
second invocation for the same id changes nothing and issues nothing. -/
theorem toggle_no_concurrent_requests_witness :
    ((3 : Nat) ∈ (toggleRun [.invoke 3]).processing) ∧
    toggleStep (toggleRun [.invoke 3]) (.invoke 3) = (toggleRun [.invoke 3], []) ∧
    (toggleRun [.invoke 3, .invoke 3]).inFlight.count 3 ≤ 1 :=
  ⟨by decide,
    (toggle_no_concurrent_requests [.invoke 3] 3).2 (toggleRun [.invoke 3]) (by decide),
    (toggle_no_concurrent_requests [.invoke 3, .invoke 3] 3).1⟩

end EventsPlanner
